import Mathlib

/-
Shallow embedding of the Kisumu County Referral Hospital appointment booking
application (src/app.py) and proofs about its booking ledger, status lookup,
now-serving selection, queue synchronisation and notification dispatch.

Modelling conventions:
* The SQLite `appointments` and `queue_sync` tables become lists of records in
  a `Store`; `INTEGER PRIMARY KEY AUTOINCREMENT` becomes the `next_id` counter.
* Timestamps `datetime.now().strftime("%Y-%m-%d %H:%M:%S")` are modelled by a
  natural-number clock value `nowTs` (the string timestamps are monotone in
  real time, so ordering and equality are preserved); the calendar date used
  by `strftime("%Y%m%d")` is modelled by a `CalDate` record.  One call of a
  Python function samples `datetime.now()` once, hence one `nowTs`/`nowDate`
  per modelled call.
* External effects (Twilio provider call, outbound HTTP POST to the queue
  service) are modelled by an environment describing how the external world
  answers; `try/except` around them becomes a total function on that
  environment (the catch-all `except` means no exception escapes).
* SQL `phone LIKE '%q%'` is modelled as case-insensitive substring
  containment (SQLite LIKE is ASCII case-insensitive; queries here are
  digit strings, and the wildcard metacharacters play no role in the claims).
-/

/-- Python `f"{n:03d}"` / `f"{n:04d}"`: decimal digits of `n`, left-padded
with zeros to a minimum width `w`. -/
def padNum (w : Nat) (n : Nat) : String :=
  let s := toString n
  if s.length < w then String.mk (List.replicate (w - s.length) '0') ++ s else s

/-- Calendar date, as used by `datetime.now().strftime("%Y%m%d")`. -/
structure CalDate where
  year : Nat
  month : Nat
  day : Nat
deriving Repr, DecidableEq

/-- `strftime("%Y%m%d")` of a date. -/
def yyyymmdd (d : CalDate) : String :=
  padNum 4 d.year ++ padNum 2 d.month ++ padNum 2 d.day

/-- `generate_booking_ref` from src/app.py, with `datetime.now()` passed as
the `now` argument. -/
def generate_booking_ref (now : CalDate) (appt_id : Nat) : String :=
  "APPT-" ++ yyyymmdd now ++ "-" ++ padNum 3 appt_id

/-- `generate_ticket_number` from src/app.py. -/
def generate_ticket_number (now : CalDate) (appt_id : Nat) : String :=
  "TKT-" ++ yyyymmdd now ++ "-" ++ padNum 4 appt_id

/-- One row of the `appointments` table (schema in src/app.py).  NULL text
columns are modelled as `""`; `created_at`/`updated_at` are clock values. -/
structure Appointment where
  id : Nat
  patient_name : String
  phone : String
  department : String
  doctor : String
  date : String
  time : String
  status : String
  stage : String
  created_at : Nat
  updated_at : Nat
  clinic_id : Nat
  booking_ref : String
  ticket_number : String
  telemedicine_link : String
  notification_sent : Nat
  insurance_verified : Nat
  notes : String
  cancel_reason : String
deriving Repr, DecidableEq

/-- One row of the `queue_sync` table (schema in src/app.py). -/
structure QueueSyncRecord where
  appointment_id : Option Nat
  patient_name : String
  ticket : String
  department : String
  booking_ref : String
  status : String
  created_at : Nat
deriving Repr, DecidableEq

/-- The persistent SQLite state: both tables plus the AUTOINCREMENT counter
for `appointments.id` (ids start at 1 and are never reused). -/
structure Store where
  appointments : List Appointment
  queue_sync : List QueueSyncRecord
  next_id : Nat
deriving Repr, DecidableEq

def emptyStore : Store := { appointments := [], queue_sync := [], next_id := 1 }

/-- Substring test on character lists: some drop of `hay` starts with `pat`. -/
def listContains (hay pat : List Char) : Bool :=
  (List.range (hay.length + 1)).any (fun i => pat.isPrefixOf (hay.drop i))

/-- Python `pat in hay` on strings. -/
def strContains (hay pat : String) : Bool :=
  listContains hay.toList pat.toList

/-- ASCII lowercasing, as both Python `.lower()` and SQLite LIKE folding. -/
def sqlLower (s : String) : String := String.mk (s.toList.map Char.toLower)

/-- Python `.strip()`: drop leading and trailing whitespace. -/
def pyStrip (s : String) : String :=
  String.mk (((s.toList.dropWhile Char.isWhitespace).reverse.dropWhile
    Char.isWhitespace).reverse)

/-- SQL `s LIKE '%q%'`: case-insensitive substring containment. -/
def likeContains (q s : String) : Bool :=
  strContains (sqlLower s) (sqlLower q)

/-- Twilio configuration resolved from secrets/environment in src/app.py;
unset values are `""` (Python falsy). -/
structure TwilioConfig where
  account_sid : String
  auth_token : String
  twilio_number : String
deriving Repr, DecidableEq

/-- How the external Twilio provider call behaves when it is actually made. -/
inductive ProviderBehavior where
  | succeeds
  | raises
deriving Repr, DecidableEq

/-- Observable outcome of `send_notification`: message handed to the provider
(on the WhatsApp or plain SMS channel), simulated info box (no provider
configured), or warning box (provider call raised and was caught). -/
inductive DeliveryOutcome where
  | sentWhatsapp
  | sentSms
  | simulated
  | failed
deriving Repr, DecidableEq

/-- `send_notification` from src/app.py.  The `try/except Exception` means
the function is total: every provider failure is converted to the `failed`
outcome (a UI warning), never re-raised. -/
def send_notification (cfg : TwilioConfig) (pb : ProviderBehavior)
    (phone msg : String) : DeliveryOutcome :=
  let _ := phone
  let _ := msg
  if cfg.account_sid != "" && cfg.auth_token != "" && cfg.twilio_number != "" then
    match pb with
    | .succeeds =>
        if strContains (sqlLower cfg.twilio_number) "whatsapp" then .sentWhatsapp
        else .sentSms
    | .raises => .failed
  else .simulated

/-- Result of the outbound `requests.post` in `queue_api_add`: either an HTTP
response with a status code, or a transport error / timeout (the `except`
branch; the call uses `timeout=5`). -/
inductive HttpResult where
  | response (status : Nat)
  | transportError
deriving Repr, DecidableEq

/-- `queue_api_add` from src/app.py: POST to the Smart Queue API; on a
non-200 response insert a `queue_sync` row with status "failed" and return
False; on a transport error insert one with status "pending" and return
False; on 200 return True.  Total in `http`: the catch-all `except` means no
exception escapes to the booking flow. -/
def queue_api_add (http : HttpResult) (now : Nat)
    (patient_name ticket department booking_ref : String)
    (s : Store) : Bool × Store :=
  match http with
  | .response status =>
      if status == 200 then (true, s)
      else
        (false, { s with queue_sync := s.queue_sync ++
          [{ appointment_id := none, patient_name := patient_name,
             ticket := ticket, department := department,
             booking_ref := booking_ref, status := "failed",
             created_at := now }] })
  | .transportError =>
      (false, { s with queue_sync := s.queue_sync ++
        [{ appointment_id := none, patient_name := patient_name,
           ticket := ticket, department := department,
           booking_ref := booking_ref, status := "pending",
           created_at := now }] })

/-- Environment of one booking call: notification configuration and provider
behaviour, queue-API behaviour, and the sampled clock. -/
structure Env where
  cfg : TwilioConfig
  provider : ProviderBehavior
  http : HttpResult
  nowDate : CalDate
  nowTs : Nat
deriving Repr, DecidableEq

/-- The notification message built in `insert_appointment`. -/
def booking_message (patient_name appt_date appt_time ref ticket link : String) : String :=
  "Hello " ++ patient_name ++ ", your appointment for " ++ appt_date ++ " at "
    ++ appt_time ++ " is received.\nReference: " ++ ref ++ "\nTicket: "
    ++ ticket ++ "\nTelemedicine: " ++ link

/-- The notification outcome produced during `insert_appointment` (the value
of the `send_notification` call it makes). -/
def booking_notification_outcome (env : Env)
    (patient_name phone appt_date appt_time : String) (appt_id : Nat) : DeliveryOutcome :=
  let ref := generate_booking_ref env.nowDate appt_id
  let ticket := generate_ticket_number env.nowDate appt_id
  let tele_link := "https://telemed.example.com/" ++ ref
  send_notification env.cfg env.provider phone
    (booking_message patient_name appt_date appt_time ref ticket tele_link)

/-- `insert_appointment` from src/app.py.  Steps, in source order:
INSERT the row (status/stage "pending", created_at = updated_at = now);
take `lastrowid`; derive booking_ref / ticket_number / telemedicine link;
UPDATE those three plus updated_at (to `created_at`); send the notification
(outcome ignored); UPDATE `notification_sent=1` (this statement does not
touch updated_at); call `queue_api_add`; return the tuple.  It performs no
validation of its inputs. -/
def insert_appointment (env : Env)
    (patient_name phone department doctor appt_date appt_time : String)
    (s : Store) : (Nat × String × String × String) × Store :=
  let created_at := env.nowTs
  let appt_id := s.next_id
  let row : Appointment :=
    { id := appt_id, patient_name := patient_name, phone := phone,
      department := department, doctor := doctor, date := appt_date,
      time := appt_time, status := "pending", stage := "pending",
      created_at := created_at, updated_at := created_at, clinic_id := 1,
      booking_ref := "", ticket_number := "", telemedicine_link := "",
      notification_sent := 0, insurance_verified := 0, notes := "",
      cancel_reason := "" }
  let s1 : Store := { s with appointments := s.appointments ++ [row],
                             next_id := s.next_id + 1 }
  let ref := generate_booking_ref env.nowDate appt_id
  let ticket := generate_ticket_number env.nowDate appt_id
  let tele_link := "https://telemed.example.com/" ++ ref
  let s2 : Store := { s1 with appointments := s1.appointments.map (fun a =>
    if a.id == appt_id then
      { a with booking_ref := ref, ticket_number := ticket,
               telemedicine_link := tele_link, updated_at := created_at }
    else a) }
  let _outcome := send_notification env.cfg env.provider phone
    (booking_message patient_name appt_date appt_time ref ticket tele_link)
  let s3 : Store := { s2 with appointments := s2.appointments.map (fun a =>
    if a.id == appt_id then { a with notification_sent := 1 } else a) }
  let r := queue_api_add env.http env.nowTs patient_name ticket department ref s3
  ((appt_id, ref, ticket, tele_link), r.2)

/-- The field allow-list of `update_appointment_field` in src/app.py. -/
def allowed_fields : List String :=
  ["patient_name", "phone", "department", "doctor", "date", "time", "status",
   "stage", "ticket_number", "booking_ref", "telemedicine_link", "notes",
   "cancel_reason"]

/- Writers for the individual mutable columns (one per SET clause). -/

def setPatientName (a : Appointment) (v : String) : Appointment := { a with patient_name := v }

def setPhone (a : Appointment) (v : String) : Appointment := { a with phone := v }

def setDepartment (a : Appointment) (v : String) : Appointment := { a with department := v }

def setDoctor (a : Appointment) (v : String) : Appointment := { a with doctor := v }

def setDate (a : Appointment) (v : String) : Appointment := { a with date := v }

def setTime (a : Appointment) (v : String) : Appointment := { a with time := v }

def setStatus (a : Appointment) (v : String) : Appointment := { a with status := v }

def setStage (a : Appointment) (v : String) : Appointment := { a with stage := v }

def setTicketNumber (a : Appointment) (v : String) : Appointment := { a with ticket_number := v }

def setBookingRef (a : Appointment) (v : String) : Appointment := { a with booking_ref := v }

def setTelemedicineLink (a : Appointment) (v : String) : Appointment := { a with telemedicine_link := v }

def setNotes (a : Appointment) (v : String) : Appointment := { a with notes := v }

def setCancelReason (a : Appointment) (v : String) : Appointment := { a with cancel_reason := v }

/-- `UPDATE appointments SET {field}=? ...` restricted to one row: write the
named column. Only called with `field ∈ allowed_fields`. -/
def setField (a : Appointment) (field value : String) : Appointment :=
  if field == "patient_name" then setPatientName a value
  else if field == "phone" then setPhone a value
  else if field == "department" then setDepartment a value
  else if field == "doctor" then setDoctor a value
  else if field == "date" then setDate a value
  else if field == "time" then setTime a value
  else if field == "status" then setStatus a value
  else if field == "stage" then setStage a value
  else if field == "ticket_number" then setTicketNumber a value
  else if field == "booking_ref" then setBookingRef a value
  else if field == "telemedicine_link" then setTelemedicineLink a value
  else if field == "notes" then setNotes a value
  else if field == "cancel_reason" then setCancelReason a value
  else a

/-- Read back the column written by `setField` (observer for the proofs). -/
def getField (a : Appointment) (field : String) : Option String :=
  if field == "patient_name" then some a.patient_name
  else if field == "phone" then some a.phone
  else if field == "department" then some a.department
  else if field == "doctor" then some a.doctor
  else if field == "date" then some a.date
  else if field == "time" then some a.time
  else if field == "status" then some a.status
  else if field == "stage" then some a.stage
  else if field == "ticket_number" then some a.ticket_number
  else if field == "booking_ref" then some a.booking_ref
  else if field == "telemedicine_link" then some a.telemedicine_link
  else if field == "notes" then some a.notes
  else if field == "cancel_reason" then some a.cancel_reason
  else none

/-- The UPDATE statement of `update_appointment_field`: set the named column
and `updated_at` on the row with the given id. -/
def applied_update (now appt_id : Nat) (field value : String) (s : Store) : Store :=
  { s with appointments := s.appointments.map (fun a =>
      if a.id == appt_id then { setField a field value with updated_at := now }
      else a) }

/-- `update_appointment_field` from src/app.py: raise
`ValueError("Invalid field update attempt")` for a field outside the
allow-list, otherwise UPDATE the named column and `updated_at` on the row
with the given id.  `Except.error` models the raised exception (the store is
left as it was by the caller). -/
def update_appointment_field (now : Nat) (appt_id : Nat) (field value : String)
    (s : Store) : Except String Store :=
  if field ∈ allowed_fields then .ok (applied_update now appt_id field value s)
  else .error "Invalid field update attempt"

/-- `delete_appointment` from src/app.py: `DELETE ... WHERE id=?`. -/
def delete_appointment (appt_id : Nat) (s : Store) : Store :=
  { s with appointments := s.appointments.filter (fun a => !(a.id == appt_id)) }

/-- The WHERE clause of the Check Status query in src/app.py:
`booking_ref=? OR phone LIKE ?` with the pattern `%q%`. -/
def status_match (q : String) (a : Appointment) : Bool :=
  a.booking_ref == q || likeContains q a.phone

/-- The Check Status handler's `fetchone()` on that query: the first matching
row in table order, if any. -/
def check_status_lookup (q : String) (s : Store) : Option Appointment :=
  s.appointments.find? (status_match q)

/-- What the Check Status handler shows the caller: the single fetched row
(or nothing). -/
def check_status_results (q : String) (s : Store) : List Appointment :=
  match check_status_lookup q s with
  | some a => [a]
  | none => []

/-- All rows the WHERE clause matches (what §4.1 of the spec asks to return). -/
def all_status_matches (q : String) (s : Store) : List Appointment :=
  s.appointments.filter (status_match q)

/-- Python falsiness of `data.get(...)` for the date/time JSON values:
absent (`None`) or the empty string. -/
def pyFalsy : Option String → Bool
  | none => true
  | some s => s == ""

/-- Outcome of the `POST /api/book` handler, as seen by the HTTP client. -/
inductive ApiResponse where
  | ok (appointment_id : Nat) (booking_ref ticket_number telemedicine_link : String)
  | badRequest (error : String)
deriving Repr, DecidableEq

/-- `api_book` from src/app.py: strip the text fields, reject with a 400 if
name, phone, department, date or time is missing/empty, otherwise call
`insert_appointment` and return its identifiers. -/
def api_book (env : Env) (patient_name phone department doctor : String)
    (date? time? : Option String) (s : Store) : ApiResponse × Store :=
  let name := pyStrip patient_name
  let ph := pyStrip phone
  let dept := pyStrip department
  let doc := pyStrip doctor
  if name == "" || ph == "" || dept == "" || pyFalsy date? || pyFalsy time? then
    (.badRequest "Missing required fields", s)
  else
    let r := insert_appointment env name ph dept doc (date?.getD "") (time?.getD "") s
    (.ok r.1.1 r.1.2.1 r.1.2.2.1 r.1.2.2.2, r.2)

/-- The booking-form handler's validation in src/app.py: it only checks that
the stripped patient name and phone are non-empty before calling
`insert_appointment` (the department comes from a select box). -/
def booking_form_accepts (patient_name phone : String) : Bool :=
  !(pyStrip patient_name == "") && !(pyStrip phone == "")

/-- The Confirm button: status := "confirmed" then stage := "confirmed". -/
def confirm_appointment (now appt_id : Nat) (s : Store) : Except String Store := do
  let s1 ← update_appointment_field now appt_id "status" "confirmed" s
  update_appointment_field now appt_id "stage" "confirmed" s1

/-- The Cancel button: status and stage := "cancelled", then the cancel
reason (Python `cancel_reason or "No reason provided"`). -/
def cancel_appointment (now appt_id : Nat) (reason : String) (s : Store) :
    Except String Store := do
  let s1 ← update_appointment_field now appt_id "status" "cancelled" s
  let s2 ← update_appointment_field now appt_id "stage" "cancelled" s1
  update_appointment_field now appt_id "cancel_reason"
    (if reason == "" then "No reason provided" else reason) s2

/-- The Update Stage button. -/
def update_stage_action (now appt_id : Nat) (new_stage : String) (s : Store) :
    Except String Store :=
  update_appointment_field now appt_id "stage" new_stage s

/-- The Reschedule button: date then time. -/
def reschedule_appointment (now appt_id : Nat) (rs_date rs_time : String)
    (s : Store) : Except String Store := do
  let s1 ← update_appointment_field now appt_id "date" rs_date s
  update_appointment_field now appt_id "time" rs_time s1

/-- The Save Note button (the handler strips the text). -/
def save_notes_action (now appt_id : Nat) (note_text : String) (s : Store) :
    Except String Store :=
  update_appointment_field now appt_id "notes" (pyStrip note_text) s

/-- The inline Edit form's direct UPDATE in src/app.py: rewrite the six
editable columns (stripped) plus `updated_at` on the row with the given id. -/
def edit_appointment (now : Nat) (appt_id : Nat)
    (e_name e_phone e_dept e_doc e_date e_time : String) (s : Store) : Store :=
  { s with appointments := s.appointments.map (fun a =>
    if a.id == appt_id then
      { a with patient_name := pyStrip e_name, phone := pyStrip e_phone,
               department := pyStrip e_dept, doctor := pyStrip e_doc,
               date := e_date, time := e_time, updated_at := now }
    else a) }

/-- Stage filter of the Now Serving block:
`df['stage'].isin(['pending', 'confirmed'])`. -/
def eligible_stage (a : Appointment) : Bool :=
  a.stage == "pending" || a.stage == "confirmed"

/-- The sort key of `sort_values(['date_dt', 'created_at'])`: `date_dt` is
the parsed "date time" string (for the app's ISO-formatted dates and times,
chronological order coincides with lexicographic string order), tie-broken by
`created_at`. -/
def apptKey (a : Appointment) : String × Nat :=
  (a.date ++ " " ++ a.time, a.created_at)

/-- Strict lexicographic comparison of character lists by code point
(the order in which the ISO-formatted "date time" strings sort, which is
chronological order — what the pandas datetime sort uses). -/
def charListLt : List Char → List Char → Bool
  | _, [] => false
  | [], _ :: _ => true
  | c :: cs, d :: ds =>
      if c.toNat < d.toNat then true
      else if d.toNat < c.toNat then false
      else charListLt cs ds

def strLt (s1 s2 : String) : Bool := charListLt s1.toList s2.toList

/-- Strict lexicographic order on the sort key. -/
def keyLT (k1 k2 : String × Nat) : Prop :=
  strLt k1.1 k2.1 = true ∨ (k1.1 = k2.1 ∧ k1.2 < k2.2)

instance instDecidableKeyLT (k1 k2 : String × Nat) : Decidable (keyLT k1 k2) :=
  show Decidable (strLt k1.1 k2.1 = true ∨ (k1.1 = k2.1 ∧ k1.2 < k2.2)) from
    inferInstance

/-- One step of taking the head of the stage-filtered dataframe sorted by
`['date_dt', 'created_at']`: keep the earlier-keyed eligible row, first
occurrence winning ties. -/
def selectBetter (acc : Option Appointment) (a : Appointment) : Option Appointment :=
  if eligible_stage a then
    match acc with
    | none => some a
    | some b => if keyLT (apptKey a) (apptKey b) then some a else some b
  else acc

/-- `df[df['stage'].isin(['pending','confirmed'])].sort_values(['date_dt',
'created_at']).head(1)` from the Now Serving block: the minimal-key eligible
appointment, or none. -/
def selectNext (l : List Appointment) : Option Appointment :=
  l.foldl selectBetter none

/-- The Now Serving block's pointer update: when `st.session_state`'s
`now_serving_id` is None, select the next eligible appointment (if any);
otherwise keep the current pointer. -/
def now_serving_select (pointer : Option Nat) (s : Store) : Option Nat :=
  match pointer with
  | some x => some x
  | none => (selectNext s.appointments).map (fun a => a.id)

/- ### Characterisation of the booking flow -/

theorem queue_api_add_appointments (http : HttpResult) (now : Nat)
    (n tk dp br : String) (s : Store) :
    ((queue_api_add http now n tk dp br s).2).appointments = s.appointments := by
  cases http with
  | response status => by_cases h : status = 200 <;> simp [queue_api_add, h]
  | transportError => rfl

theorem queue_api_add_next_id (http : HttpResult) (now : Nat)
    (n tk dp br : String) (s : Store) :
    ((queue_api_add http now n tk dp br s).2).next_id = s.next_id := by
  cases http with
  | response status => by_cases h : status = 200 <;> simp [queue_api_add, h]
  | transportError => rfl

/-- The appointment row as `insert_appointment` leaves it in the table
(proved below: `insert_appointment_getLast`, `insert_appointment_appointments`). -/
def bookedRecord (env : Env)
    (patient_name phone department doctor appt_date appt_time : String)
    (appt_id : Nat) : Appointment :=
  { id := appt_id, patient_name := patient_name, phone := phone,
    department := department, doctor := doctor, date := appt_date,
    time := appt_time, status := "pending", stage := "pending",
    created_at := env.nowTs, updated_at := env.nowTs, clinic_id := 1,
    booking_ref := generate_booking_ref env.nowDate appt_id,
    ticket_number := generate_ticket_number env.nowDate appt_id,
    telemedicine_link := "https://telemed.example.com/"
      ++ generate_booking_ref env.nowDate appt_id,
    notification_sent := 1, insurance_verified := 0, notes := "",
    cancel_reason := "" }

theorem insert_appointment_fst (env : Env) (s : Store)
    (n p dp dc d t : String) :
    (insert_appointment env n p dp dc d t s).1 =
      (s.next_id, generate_booking_ref env.nowDate s.next_id,
       generate_ticket_number env.nowDate s.next_id,
       "https://telemed.example.com/" ++ generate_booking_ref env.nowDate s.next_id) := rfl

/-- A per-id UPDATE leaves every row whose id differs untouched. -/
theorem map_idGuard_eq_of_ne (appt_id : Nat) (upd : Appointment → Appointment)
    (l : List Appointment) (h : ∀ a ∈ l, a.id ≠ appt_id) :
    l.map (fun a => if a.id == appt_id then upd a else a) = l := by
  induction l with
  | nil => rfl
  | cons x xs ih =>
      have hx : x.id ≠ appt_id := h x (List.mem_cons_self x xs)
      have hxs : ∀ a ∈ xs, a.id ≠ appt_id := fun a ha => h a (List.mem_cons_of_mem x ha)
      have hcond : ¬((x.id == appt_id) = true) := by simp [hx]
      rw [List.map_cons, if_neg hcond, ih hxs]

theorem insert_appointment_getLast (env : Env) (s : Store)
    (n p dp dc d t : String) :
    ((insert_appointment env n p dp dc d t s).2).appointments.getLast? =
      some (bookedRecord env n p dp dc d t s.next_id) := by
  simp only [insert_appointment, queue_api_add_appointments]
  simp [List.getLast?_concat, bookedRecord]

theorem insert_appointment_appointments (env : Env) (s : Store)
    (n p dp dc d t : String)
    (hfresh : ∀ a ∈ s.appointments, a.id ≠ s.next_id) :
    ((insert_appointment env n p dp dc d t s).2).appointments =
      s.appointments ++ [bookedRecord env n p dp dc d t s.next_id] := by
  simp only [insert_appointment, queue_api_add_appointments]
  rw [List.map_append, map_idGuard_eq_of_ne _ _ _ hfresh]
  rw [List.map_append, map_idGuard_eq_of_ne _ _ _ hfresh]
  simp [bookedRecord]

/-- C2: for every appointment created with id n on creation date d, the
booking reference is "APPT-" ++ YYYYMMDD(d) ++ "-" ++ n zero-padded to 3
digits, the ticket number is "TKT-" ++ YYYYMMDD(d) ++ "-" ++ n zero-padded to
4 digits, the telemedicine link is the deterministic URL containing the
booking reference, the stored row carries exactly these identifiers, and the
spec's example (id 7, 2025-09-28) evaluates to APPT-20250928-007 and
TKT-20250928-0007. -/
theorem booking_identifier_formats (env : Env) (s : Store)
    (patient_name phone department doctor appt_date appt_time : String) :
    (insert_appointment env patient_name phone department doctor appt_date appt_time s).1.2.1
        = "APPT-" ++ yyyymmdd env.nowDate ++ "-"
          ++ padNum 3 (insert_appointment env patient_name phone department doctor appt_date appt_time s).1.1
    ∧ (insert_appointment env patient_name phone department doctor appt_date appt_time s).1.2.2.1
        = "TKT-" ++ yyyymmdd env.nowDate ++ "-"
          ++ padNum 4 (insert_appointment env patient_name phone department doctor appt_date appt_time s).1.1
    ∧ (insert_appointment env patient_name phone department doctor appt_date appt_time s).1.2.2.2
        = "https://telemed.example.com/"
          ++ (insert_appointment env patient_name phone department doctor appt_date appt_time s).1.2.1
    ∧ (∃ a, ((insert_appointment env patient_name phone department doctor appt_date appt_time s).2).appointments.getLast?
          = some a
        ∧ a.id = (insert_appointment env patient_name phone department doctor appt_date appt_time s).1.1
        ∧ a.booking_ref = (insert_appointment env patient_name phone department doctor appt_date appt_time s).1.2.1
        ∧ a.ticket_number = (insert_appointment env patient_name phone department doctor appt_date appt_time s).1.2.2.1
        ∧ a.telemedicine_link = (insert_appointment env patient_name phone department doctor appt_date appt_time s).1.2.2.2
        ∧ a.created_at = env.nowTs)
    ∧ generate_booking_ref ⟨2025, 9, 28⟩ 7 = "APPT-20250928-007"
    ∧ generate_ticket_number ⟨2025, 9, 28⟩ 7 = "TKT-20250928-0007" := by
  refine ⟨?_, ?_, ?_, ?_, ?_, ?_⟩
  · rw [insert_appointment_fst]; rfl
  · rw [insert_appointment_fst]; rfl
  · rw [insert_appointment_fst]
  · exact ⟨bookedRecord env patient_name phone department doctor appt_date appt_time s.next_id,
      insert_appointment_getLast env s _ _ _ _ _ _,
      by rw [insert_appointment_fst]; rfl,
      by rw [insert_appointment_fst]; rfl,
      by rw [insert_appointment_fst]; rfl,
      by rw [insert_appointment_fst]; rfl,
      rfl⟩
  · rfl
  · rfl

/-- C10: after every booking — whatever the notification configuration and
provider behaviour — the stored row has notification_sent = 1; yet in the
no-provider run the notification outcome of that same booking is merely
Simulated, and in a provider-failure run it is Failed, so the flag does not
witness actual delivery. -/
theorem notification_sent_flag_unconditional (env : Env) (s : Store)
    (n p dp dc d t : String) :
    (∃ a, ((insert_appointment env n p dp dc d t s).2).appointments.getLast? = some a
        ∧ a.notification_sent = 1)
    ∧ (env.cfg.account_sid = "" →
        booking_notification_outcome env n p d t s.next_id = .simulated)
    ∧ (env.cfg.account_sid ≠ "" → env.cfg.auth_token ≠ "" →
        env.cfg.twilio_number ≠ "" → env.provider = .raises →
        booking_notification_outcome env n p d t s.next_id = .failed) := by
  refine ⟨⟨bookedRecord env n p dp dc d t s.next_id,
      insert_appointment_getLast env s _ _ _ _ _ _, rfl⟩, ?_, ?_⟩
  · intro h
    simp [booking_notification_outcome, send_notification, h]
  · intro h1 h2 h3 h4
    simp [booking_notification_outcome, send_notification, h1, h2, h3, h4]

/-- C8: a non-2xx response from the queue service makes `queue_api_add`
return false and append exactly one queue_sync record with status "failed";
a transport error / timeout makes it return false and append exactly one
record with status "pending"; and the booking flow completes with its
identifiers for every possible outcome of the call (the catch-all handler
means no failure raises out of `insert_appointment`). -/
theorem queue_sync_failure_recording (now : Nat) (n tk dp br : String)
    (s : Store) (status : Nat) :
    (status < 200 ∨ 300 ≤ status →
      queue_api_add (.response status) now n tk dp br s =
        (false, { s with queue_sync := s.queue_sync ++
          [{ appointment_id := none, patient_name := n, ticket := tk,
             department := dp, booking_ref := br, status := "failed",
             created_at := now }] }))
    ∧ queue_api_add .transportError now n tk dp br s =
        (false, { s with queue_sync := s.queue_sync ++
          [{ appointment_id := none, patient_name := n, ticket := tk,
             department := dp, booking_ref := br, status := "pending",
             created_at := now }] })
    ∧ ∀ (env : Env) (p dp2 dc d t : String),
        (insert_appointment env n p dp2 dc d t s).1 =
          (s.next_id, generate_booking_ref env.nowDate s.next_id,
           generate_ticket_number env.nowDate s.next_id,
           "https://telemed.example.com/" ++ generate_booking_ref env.nowDate s.next_id) := by
  refine ⟨?_, rfl, fun env p dp2 dc d t => insert_appointment_fst env s n p dp2 dc d t⟩
  intro h
  have hne : status ≠ 200 := by omega
  simp [queue_api_add, hne]

theorem queue_sync_failure_recording_witness :
    (503 < 200 ∨ 300 ≤ 503)
    ∧ queue_api_add (.response 503) 12 "Jane" "TKT-20250928-0001" "OPD"
          "APPT-20250928-001" emptyStore =
        (false, { emptyStore with queue_sync :=
          [{ appointment_id := none, patient_name := "Jane",
             ticket := "TKT-20250928-0001", department := "OPD",
             booking_ref := "APPT-20250928-001", status := "failed",
             created_at := 12 }] }) :=
  ⟨Or.inr (by decide),
   (queue_sync_failure_recording 12 "Jane" "TKT-20250928-0001" "OPD"
      "APPT-20250928-001" emptyStore 503).1 (Or.inr (by decide))⟩

/-- C9: with no provider configured (the Python truthiness gate on the three
Twilio settings is false) `send_notification` returns the Simulated outcome
for every phone and message, including an empty phone; with a provider
configured, a raising provider call is caught and becomes the Failed
outcome.  The function is total, so it never raises to its caller. -/
theorem send_notification_outcomes (cfg : TwilioConfig) (pb : ProviderBehavior)
    (phone msg : String) :
    ((cfg.account_sid != "" && cfg.auth_token != "" && cfg.twilio_number != "") = false →
      send_notification cfg pb phone msg = .simulated)
    ∧ ((cfg.account_sid != "" && cfg.auth_token != "" && cfg.twilio_number != "") = true →
      send_notification cfg .raises phone msg = .failed) :=
  ⟨fun h => by simp [send_notification, h],
   fun h => by simp [send_notification, h]⟩

theorem send_notification_outcomes_witness :
    ((TwilioConfig.mk "" "" "").account_sid != ""
        && (TwilioConfig.mk "" "" "").auth_token != ""
        && (TwilioConfig.mk "" "" "").twilio_number != "") = false
    ∧ send_notification (TwilioConfig.mk "" "" "") .succeeds "" "hello" = .simulated
    ∧ send_notification (TwilioConfig.mk "sid" "tok" "2547") .raises "0712" "hi" = .failed :=
  ⟨by decide,
   (send_notification_outcomes (TwilioConfig.mk "" "" "") .succeeds "" "hello").1 (by decide),
   (send_notification_outcomes (TwilioConfig.mk "sid" "tok" "2547") .raises "0712" "hi").2 (by decide)⟩

/- ### Field-update lemmas -/

theorem setField_fields (field : String) (h : field ∈ allowed_fields)
    (a : Appointment) (value : String) :
    getField (setField a field value) field = some value
    ∧ (setField a field value).id = a.id
    ∧ (setField a field value).created_at = a.created_at := by
  fin_cases h <;> exact ⟨rfl, rfl, rfl⟩

/-- The columns the staff actions actually pass to
`update_appointment_field` never touch the identifier columns. -/
theorem setField_keeps_identifiers (field : String)
    (h : field = "status" ∨ field = "stage" ∨ field = "cancel_reason"
       ∨ field = "date" ∨ field = "time" ∨ field = "notes")
    (a : Appointment) (value : String) :
    (setField a field value).booking_ref = a.booking_ref
    ∧ (setField a field value).ticket_number = a.ticket_number
    ∧ (setField a field value).id = a.id := by
  rcases h with h | h | h | h | h | h <;> subst h <;> exact ⟨rfl, rfl, rfl⟩

/-- C6: `update_appointment_field` with a field name outside the allow-list
(such as "id" or "__import__") raises `ValueError("Invalid field update
attempt")` before any write, leaving the store as the caller held it; with a
field in the allow-list it returns a store of the same shape in which the
row with the given id has the named column set to the value and updated_at
stamped (id and created_at intact), and every other row is untouched. -/
theorem update_field_allowlist_guard (now appt_id : Nat) (field value : String)
    (s : Store) :
    (field ∉ allowed_fields →
      update_appointment_field now appt_id field value s =
        .error "Invalid field update attempt")
    ∧ "id" ∉ allowed_fields
    ∧ "__import__" ∉ allowed_fields
    ∧ (field ∈ allowed_fields →
        ∃ s', update_appointment_field now appt_id field value s = .ok s'
          ∧ s'.queue_sync = s.queue_sync
          ∧ s'.next_id = s.next_id
          ∧ s'.appointments.length = s.appointments.length
          ∧ ∀ i (hi : i < s.appointments.length) (hi' : i < s'.appointments.length),
              ((s.appointments[i]).id ≠ appt_id →
                  s'.appointments[i] = s.appointments[i])
              ∧ ((s.appointments[i]).id = appt_id →
                  getField s'.appointments[i] field = some value
                  ∧ (s'.appointments[i]).updated_at = now
                  ∧ (s'.appointments[i]).id = (s.appointments[i]).id
                  ∧ (s'.appointments[i]).created_at = (s.appointments[i]).created_at)) := by
  refine ⟨?_, by decide, by decide, ?_⟩
  · intro h
    simp [update_appointment_field, h]
  · intro h
    refine ⟨applied_update now appt_id field value s,
      by simp [update_appointment_field, h], rfl, rfl,
      by simp [applied_update], ?_⟩
    intro i hi hi'
    constructor
    · intro hne
      have hcond : ¬(((s.appointments[i]).id == appt_id) = true) := by simp [hne]
      simp only [applied_update, List.getElem_map]
      rw [if_neg hcond]
    · intro heq
      have hcond : ((s.appointments[i]).id == appt_id) = true := by simp [heq]
      simp only [applied_update, List.getElem_map]
      rw [if_pos hcond]
      have h3 := setField_fields field h (s.appointments[i]) value
      exact ⟨h3.1, rfl, h3.2.1, h3.2.2⟩

def sampleStore : Store :=
  { appointments := [
      { id := 1, patient_name := "Jane", phone := "0712000001",
        department := "OPD", doctor := "", date := "2025-09-28",
        time := "09:00:00", status := "pending", stage := "pending",
        created_at := 3, updated_at := 3, clinic_id := 1,
        booking_ref := "APPT-20250928-001", ticket_number := "TKT-20250928-0001",
        telemedicine_link := "https://telemed.example.com/APPT-20250928-001",
        notification_sent := 1, insurance_verified := 0, notes := "",
        cancel_reason := "" }],
    queue_sync := [], next_id := 2 }

theorem update_field_allowlist_guard_witness :
    update_appointment_field 9 1 "id" "99" sampleStore =
        .error "Invalid field update attempt"
    ∧ ∃ s', update_appointment_field 9 1 "status" "confirmed" sampleStore = .ok s'
        ∧ s'.queue_sync = sampleStore.queue_sync
        ∧ s'.next_id = sampleStore.next_id
        ∧ s'.appointments.length = sampleStore.appointments.length
        ∧ ∀ i (hi : i < sampleStore.appointments.length)
            (hi' : i < s'.appointments.length),
            ((sampleStore.appointments[i]).id ≠ 1 →
                s'.appointments[i] = sampleStore.appointments[i])
            ∧ ((sampleStore.appointments[i]).id = 1 →
                getField s'.appointments[i] "status" = some "confirmed"
                ∧ (s'.appointments[i]).updated_at = 9
                ∧ (s'.appointments[i]).id = (sampleStore.appointments[i]).id
                ∧ (s'.appointments[i]).created_at
                    = (sampleStore.appointments[i]).created_at) :=
  ⟨(update_field_allowlist_guard 9 1 "id" "99" sampleStore).1 (by decide),
   (update_field_allowlist_guard 9 1 "status" "confirmed" sampleStore).2.2.2
     (by decide)⟩

/- ### C4: updated_at / created_at discipline -/

/-- Test fixture: an appointment row with the given id, phone, date/time,
stage and creation instant (remaining columns defaulted). -/
def mkAppt (i : Nat) (ph dt tm sg : String) (ca : Nat) : Appointment :=
  { id := i, patient_name := "P", phone := ph, department := "OPD",
    doctor := "", date := dt, time := tm, status := "pending", stage := sg,
    created_at := ca, updated_at := ca, clinic_id := 1, booking_ref := "",
    ticket_number := "", telemedicine_link := "", notification_sent := 0,
    insurance_verified := 0, notes := "", cancel_reason := "" }

/-- C4: the booking flow (insert, post-insert identifier update,
notification_sent update) leaves its new row with updated_at equal to the
flow's single sampled timestamp, which is also its created_at, while leaving
every pre-existing row untouched; `update_appointment_field` (the engine of
confirm, cancel, reschedule, stage update and notes) stamps updated_at = now
on the touched row, preserves its created_at, and leaves other rows alone;
and the edit form's direct UPDATE does the same.  created_at is written only
at creation and never modified afterwards. -/
theorem mutating_ops_refresh_updated_at (env : Env) (s : Store)
    (n p dp dc d t : String) (now appt_id : Nat) (field value : String)
    (e_name e_phone e_dept e_doc e_date e_time : String) :
    (∃ a, ((insert_appointment env n p dp dc d t s).2).appointments.getLast? = some a
        ∧ a.created_at = env.nowTs ∧ a.updated_at = env.nowTs
        ∧ a.notification_sent = 1)
    ∧ ((∀ b ∈ s.appointments, b.id ≠ s.next_id) →
        ((insert_appointment env n p dp dc d t s).2).appointments =
          s.appointments ++ [bookedRecord env n p dp dc d t s.next_id])
    ∧ (∀ s', update_appointment_field now appt_id field value s = .ok s' →
        s'.appointments.length = s.appointments.length
        ∧ ∀ i (hi : i < s.appointments.length) (hi' : i < s'.appointments.length),
            (s'.appointments[i]).created_at = (s.appointments[i]).created_at
            ∧ ((s.appointments[i]).id = appt_id →
                (s'.appointments[i]).updated_at = now)
            ∧ ((s.appointments[i]).id ≠ appt_id →
                s'.appointments[i] = s.appointments[i]))
    ∧ ((edit_appointment now appt_id e_name e_phone e_dept e_doc e_date e_time s).appointments.length
          = s.appointments.length
        ∧ ∀ i (hi : i < s.appointments.length)
            (hi' : i < (edit_appointment now appt_id e_name e_phone e_dept e_doc e_date e_time s).appointments.length),
            ((edit_appointment now appt_id e_name e_phone e_dept e_doc e_date e_time s).appointments[i]).created_at
              = (s.appointments[i]).created_at
            ∧ ((s.appointments[i]).id = appt_id →
                ((edit_appointment now appt_id e_name e_phone e_dept e_doc e_date e_time s).appointments[i]).updated_at = now)
            ∧ ((s.appointments[i]).id ≠ appt_id →
                (edit_appointment now appt_id e_name e_phone e_dept e_doc e_date e_time s).appointments[i]
                  = s.appointments[i])) := by
  refine ⟨⟨bookedRecord env n p dp dc d t s.next_id,
      insert_appointment_getLast env s n p dp dc d t, rfl, rfl, rfl⟩,
    fun hfresh => insert_appointment_appointments env s n p dp dc d t hfresh,
    ?_, ?_⟩
  · intro s' h
    by_cases hf : field ∈ allowed_fields
    · rw [update_appointment_field, if_pos hf] at h
      have hs' : applied_update now appt_id field value s = s' := by
        simpa using h
      subst hs'
      refine ⟨by simp [applied_update], ?_⟩
      intro i hi hi'
      by_cases hid : (s.appointments[i]).id = appt_id
      · have hcond : ((s.appointments[i]).id == appt_id) = true := by simp [hid]
        simp only [applied_update, List.getElem_map]
        rw [if_pos hcond]
        exact ⟨(setField_fields field hf _ value).2.2, fun _ => rfl,
          fun hne => absurd hid hne⟩
      · have hcond : ¬(((s.appointments[i]).id == appt_id) = true) := by simp [hid]
        simp only [applied_update, List.getElem_map]
        rw [if_neg hcond]
        exact ⟨rfl, fun heq => absurd heq hid, fun _ => rfl⟩
    · rw [update_appointment_field, if_neg hf] at h
      exact absurd h (by simp)
  · refine ⟨by simp [edit_appointment], ?_⟩
    intro i hi hi'
    by_cases hid : (s.appointments[i]).id = appt_id
    · have hcond : ((s.appointments[i]).id == appt_id) = true := by simp [hid]
      simp only [edit_appointment, List.getElem_map]
      rw [if_pos hcond]
      exact ⟨rfl, fun _ => rfl, fun hne => absurd hid hne⟩
    · have hcond : ¬(((s.appointments[i]).id == appt_id) = true) := by simp [hid]
      simp only [edit_appointment, List.getElem_map]
      rw [if_neg hcond]
      exact ⟨rfl, fun heq => absurd heq hid, fun _ => rfl⟩

def envW : Env :=
  { cfg := { account_sid := "", auth_token := "", twilio_number := "" },
    provider := .succeeds, http := .transportError,
    nowDate := { year := 2025, month := 9, day := 28 }, nowTs := 5 }

def storeW : Store :=
  { appointments := [mkAppt 1 "0712000001" "2025-09-28" "09:00:00" "pending" 3],
    queue_sync := [], next_id := 2 }

theorem mutating_ops_refresh_updated_at_witness :
    (∀ b ∈ storeW.appointments, b.id ≠ storeW.next_id)
    ∧ ((insert_appointment envW "J" "0712" "OPD" "" "2025-09-28" "09:00:00" storeW).2).appointments
        = storeW.appointments
          ++ [bookedRecord envW "J" "0712" "OPD" "" "2025-09-28" "09:00:00" storeW.next_id]
    ∧ ((applied_update 9 1 "status" "confirmed" storeW).appointments.length
          = storeW.appointments.length
        ∧ ∀ i (hi : i < storeW.appointments.length)
            (hi' : i < (applied_update 9 1 "status" "confirmed" storeW).appointments.length),
            ((applied_update 9 1 "status" "confirmed" storeW).appointments[i]).created_at
              = (storeW.appointments[i]).created_at
            ∧ ((storeW.appointments[i]).id = 1 →
                ((applied_update 9 1 "status" "confirmed" storeW).appointments[i]).updated_at = 9)
            ∧ ((storeW.appointments[i]).id ≠ 1 →
                (applied_update 9 1 "status" "confirmed" storeW).appointments[i]
                  = storeW.appointments[i])) :=
  ⟨by decide,
   (mutating_ops_refresh_updated_at envW storeW "J" "0712" "OPD" "" "2025-09-28"
      "09:00:00" 9 1 "status" "confirmed" "" "" "" "" "" "").2.1 (by decide),
   (mutating_ops_refresh_updated_at envW storeW "J" "0712" "OPD" "" "2025-09-28"
      "09:00:00" 9 1 "status" "confirmed" "" "" "" "" "" "").2.2.1
     (applied_update 9 1 "status" "confirmed" storeW) rfl⟩

/- ### C5: identifier stability -/

/-- Both stores have rows of equal ids, booking references and ticket
numbers, position by position. -/
def preserves_identifiers (s s' : Store) : Prop :=
  s'.appointments.length = s.appointments.length
  ∧ ∀ i (hi : i < s.appointments.length) (hi' : i < s'.appointments.length),
      (s'.appointments[i]).booking_ref = (s.appointments[i]).booking_ref
      ∧ (s'.appointments[i]).ticket_number = (s.appointments[i]).ticket_number
      ∧ (s'.appointments[i]).id = (s.appointments[i]).id

theorem preserves_identifiers_trans (s1 s2 s3 : Store)
    (h12 : preserves_identifiers s1 s2) (h23 : preserves_identifiers s2 s3) :
    preserves_identifiers s1 s3 := by
  obtain ⟨hl12, h12⟩ := h12
  obtain ⟨hl23, h23⟩ := h23
  refine ⟨hl23.trans hl12, ?_⟩
  intro i hi hi'
  have hi2 : i < s2.appointments.length := hl12 ▸ hi
  obtain ⟨hb12, ht12, hid12⟩ := h12 i hi hi2
  obtain ⟨hb23, ht23, hid23⟩ := h23 i hi2 hi'
  exact ⟨hb23.trans hb12, ht23.trans ht12, hid23.trans hid12⟩

theorem applied_update_preserves_identifiers (now appt_id : Nat)
    (field value : String)
    (h : field = "status" ∨ field = "stage" ∨ field = "cancel_reason"
       ∨ field = "date" ∨ field = "time" ∨ field = "notes")
    (s : Store) :
    preserves_identifiers s (applied_update now appt_id field value s) := by
  refine ⟨by simp [applied_update], ?_⟩
  intro i hi hi'
  simp only [applied_update, List.getElem_map]
  by_cases hid : (s.appointments[i]).id = appt_id
  · rw [if_pos (by simp [hid])]
    exact setField_keeps_identifiers field h _ value
  · rw [if_neg (by simp [hid])]
    exact ⟨rfl, rfl, rfl⟩

theorem confirm_appointment_eq (now appt_id : Nat) (s : Store) :
    confirm_appointment now appt_id s =
      .ok (applied_update now appt_id "stage" "confirmed"
            (applied_update now appt_id "status" "confirmed" s)) := rfl

theorem cancel_appointment_eq (now appt_id : Nat) (reason : String) (s : Store) :
    cancel_appointment now appt_id reason s =
      .ok (applied_update now appt_id "cancel_reason"
            (if reason == "" then "No reason provided" else reason)
            (applied_update now appt_id "stage" "cancelled"
              (applied_update now appt_id "status" "cancelled" s))) := rfl

theorem reschedule_appointment_eq (now appt_id : Nat) (rs_date rs_time : String)
    (s : Store) :
    reschedule_appointment now appt_id rs_date rs_time s =
      .ok (applied_update now appt_id "time" rs_time
            (applied_update now appt_id "date" rs_date s)) := rfl

/-- C5 counterexample: `update_appointment_field` accepts "booking_ref" and
"ticket_number" (both are in the allow-list) and rewrites them on a stored
row, so an operation of the system can change the booking reference and
ticket number after assignment. -/
theorem booking_ref_mutable_via_update_field :
    update_appointment_field 9 1 "booking_ref" "HACKED" sampleStore =
      .ok (applied_update 9 1 "booking_ref" "HACKED" sampleStore)
    ∧ (applied_update 9 1 "booking_ref" "HACKED" sampleStore).appointments.map
        (fun a => a.booking_ref) = ["HACKED"]
    ∧ sampleStore.appointments.map (fun a => a.booking_ref) = ["APPT-20250928-001"]
    ∧ update_appointment_field 9 1 "ticket_number" "FAKE" sampleStore =
      .ok (applied_update 9 1 "ticket_number" "FAKE" sampleStore)
    ∧ (applied_update 9 1 "ticket_number" "FAKE" sampleStore).appointments.map
        (fun a => a.ticket_number) = ["FAKE"]
    ∧ sampleStore.appointments.map (fun a => a.ticket_number) = ["TKT-20250928-0001"] :=
  ⟨rfl, rfl, rfl, rfl, rfl, rfl⟩

/-- C5 (amended): the id is immutable — "id" is outside the allow-list and
every accepted update, the edit form and the booking flow preserve row ids —
and the booking reference and ticket number are assigned at creation and
unchanged by every operation the application actually invokes (confirm,
cancel, stage update, reschedule, notes, edit); `update_appointment_field`
itself, however, accepts "booking_ref" and "ticket_number", so they are not
protected against direct field updates. -/
theorem identifier_assignment_amended (env : Env) (now appt_id : Nat)
    (reason stg rd rt note : String)
    (e1 e2 e3 e4 e5 e6 : String) (s : Store) :
    "id" ∉ allowed_fields
    ∧ (∀ field value s', update_appointment_field now appt_id field value s = .ok s' →
        s'.appointments.length = s.appointments.length
        ∧ ∀ i (hi : i < s.appointments.length)
            (hi' : i < s'.appointments.length),
            (s'.appointments[i]).id = (s.appointments[i]).id)
    ∧ (∃ a, ((insert_appointment env "N" "07" "OPD" "" "2025-09-28" "09:00:00" s).2).appointments.getLast? = some a
        ∧ a.booking_ref = generate_booking_ref env.nowDate s.next_id
        ∧ a.ticket_number = generate_ticket_number env.nowDate s.next_id)
    ∧ (∀ s', confirm_appointment now appt_id s = .ok s' → preserves_identifiers s s')
    ∧ (∀ s', cancel_appointment now appt_id reason s = .ok s' → preserves_identifiers s s')
    ∧ (∀ s', update_stage_action now appt_id stg s = .ok s' → preserves_identifiers s s')
    ∧ (∀ s', reschedule_appointment now appt_id rd rt s = .ok s' → preserves_identifiers s s')
    ∧ (∀ s', save_notes_action now appt_id note s = .ok s' → preserves_identifiers s s')
    ∧ preserves_identifiers s (edit_appointment now appt_id e1 e2 e3 e4 e5 e6 s) := by
  refine ⟨by decide, ?_, ?_, ?_, ?_, ?_, ?_, ?_, ?_⟩
  · intro field value s' h
    by_cases hf : field ∈ allowed_fields
    · rw [update_appointment_field, if_pos hf] at h
      have hs' : applied_update now appt_id field value s = s' := by simpa using h
      subst hs'
      refine ⟨by simp [applied_update], ?_⟩
      intro i hi hi'
      simp only [applied_update, List.getElem_map]
      by_cases hid : (s.appointments[i]).id = appt_id
      · rw [if_pos (by simp [hid])]
        exact (setField_fields field hf _ value).2.1
      · rw [if_neg (by simp [hid])]
    · rw [update_appointment_field, if_neg hf] at h
      exact absurd h (by simp)
  · exact ⟨bookedRecord env "N" "07" "OPD" "" "2025-09-28" "09:00:00" s.next_id,
      insert_appointment_getLast env s _ _ _ _ _ _, rfl, rfl⟩
  · intro s' h
    rw [confirm_appointment_eq] at h
    have hs' := (Except.ok.inj h)
    subst hs'
    exact preserves_identifiers_trans _ _ _
      (applied_update_preserves_identifiers now appt_id "status" "confirmed"
        (Or.inl rfl) s)
      (applied_update_preserves_identifiers now appt_id "stage" "confirmed"
        (Or.inr (Or.inl rfl)) _)
  · intro s' h
    rw [cancel_appointment_eq] at h
    have hs' := (Except.ok.inj h)
    subst hs'
    exact preserves_identifiers_trans _ _ _
      (preserves_identifiers_trans _ _ _
        (applied_update_preserves_identifiers now appt_id "status" "cancelled"
          (Or.inl rfl) s)
        (applied_update_preserves_identifiers now appt_id "stage" "cancelled"
          (Or.inr (Or.inl rfl)) _))
      (applied_update_preserves_identifiers now appt_id "cancel_reason" _
        (Or.inr (Or.inr (Or.inl rfl))) _)
  · intro s' h
    rw [update_stage_action, update_appointment_field, if_pos (by decide)] at h
    have hs' := (Except.ok.inj h)
    subst hs'
    exact applied_update_preserves_identifiers now appt_id "stage" stg
      (Or.inr (Or.inl rfl)) s
  · intro s' h
    rw [reschedule_appointment_eq] at h
    have hs' := (Except.ok.inj h)
    subst hs'
    exact preserves_identifiers_trans _ _ _
      (applied_update_preserves_identifiers now appt_id "date" rd
        (Or.inr (Or.inr (Or.inr (Or.inl rfl)))) s)
      (applied_update_preserves_identifiers now appt_id "time" rt
        (Or.inr (Or.inr (Or.inr (Or.inr (Or.inl rfl))))) _)
  · intro s' h
    rw [save_notes_action, update_appointment_field, if_pos (by decide)] at h
    have hs' := (Except.ok.inj h)
    subst hs'
    exact applied_update_preserves_identifiers now appt_id "notes" (pyStrip note)
      (Or.inr (Or.inr (Or.inr (Or.inr (Or.inr rfl))))) s
  · refine ⟨by simp [edit_appointment], ?_⟩
    intro i hi hi'
    simp only [edit_appointment, List.getElem_map]
    by_cases hid : (s.appointments[i]).id = appt_id
    · rw [if_pos (by simp [hid])]
      exact ⟨rfl, rfl, rfl⟩
    · rw [if_neg (by simp [hid])]
      exact ⟨rfl, rfl, rfl⟩

theorem identifier_assignment_amended_witness :
    preserves_identifiers sampleStore
      (applied_update 9 1 "stage" "confirmed"
        (applied_update 9 1 "status" "confirmed" sampleStore)) :=
  (identifier_assignment_amended envW 9 1 "" "done" "2025-09-29" "10:00:00"
      "note" "" "" "" "" "" "" sampleStore).2.2.2.1 _ rfl

/- ### C3: creation validation -/

/-- C3 counterexample: `insert_appointment` itself performs no validation —
called with empty patient name, phone and department it still inserts a row
(and raises nothing), so creation does not fail on empty required fields. -/
theorem insert_appointment_no_validation :
    ((insert_appointment envW "" "" "" "" "2025-10-01" "09:00:00" emptyStore).2).appointments.length = 1
    ∧ ((insert_appointment envW "" "" "" "" "2025-10-01" "09:00:00" emptyStore).2).appointments.map
        (fun a => (a.patient_name, a.phone, a.department)) = [("", "", "")] :=
  ⟨rfl, rfl⟩

/-- C3 (amended): the validation lives in the callers, not in the ledger
insert: the `POST /api/book` handler rejects a blank (stripped) patient
name, phone or department with a 400 response and inserts nothing, and only
requests with all of them non-blank (and a date and time present) reach
`insert_appointment` and produce a row carrying those values; the booking
form likewise only submits when the stripped name and phone are non-empty.
`insert_appointment` itself inserts whatever it is given. -/
theorem api_book_validation (env : Env) (s : Store) (nm ph dp dc : String)
    (d? t? : Option String) :
    ((pyStrip nm) = "" ∨ (pyStrip ph) = "" ∨ (pyStrip dp) = "" →
      api_book env nm ph dp dc d? t? s = (.badRequest "Missing required fields", s))
    ∧ ((pyStrip nm) ≠ "" → (pyStrip ph) ≠ "" → (pyStrip dp) ≠ "" →
        pyFalsy d? = false → pyFalsy t? = false →
        (∃ a, ((api_book env nm ph dp dc d? t? s).2).appointments.getLast? = some a
            ∧ a.patient_name = (pyStrip nm) ∧ a.phone = (pyStrip ph) ∧ a.department = (pyStrip dp))
        ∧ (api_book env nm ph dp dc d? t? s).1 =
            .ok s.next_id (generate_booking_ref env.nowDate s.next_id)
              (generate_ticket_number env.nowDate s.next_id)
              ("https://telemed.example.com/" ++ generate_booking_ref env.nowDate s.next_id))
    ∧ (booking_form_accepts nm ph = false ↔ ((pyStrip nm) = "" ∨ (pyStrip ph) = "")) := by
  refine ⟨?_, ?_, ?_⟩
  · intro h
    have hcond : ((pyStrip nm) == "" || (pyStrip ph) == "" || (pyStrip dp) == ""
        || pyFalsy d? || pyFalsy t?) = true := by
      rcases h with h | h | h <;> simp [h]
    simp [api_book, hcond]
  · intro h1 h2 h3 h4 h5
    have hcond : ((pyStrip nm) == "" || (pyStrip ph) == "" || (pyStrip dp) == ""
        || pyFalsy d? || pyFalsy t?) = false := by
      simp [h1, h2, h3, h4, h5]
    constructor
    · refine ⟨bookedRecord env (pyStrip nm) (pyStrip ph) (pyStrip dp) (pyStrip dc) (d?.getD "") (t?.getD "") s.next_id, ?_, rfl, rfl, rfl⟩
      simp only [api_book, hcond, Bool.false_eq_true, if_false]
      exact insert_appointment_getLast env s _ _ _ _ _ _
    · simp only [api_book, hcond, Bool.false_eq_true, if_false]
      rw [insert_appointment_fst]
  · constructor
    · intro h
      by_cases h1 : (pyStrip nm) = ""
      · exact Or.inl h1
      · refine Or.inr ?_
        by_cases h2 : (pyStrip ph) = ""
        · exact h2
        · exact absurd h (by simp [booking_form_accepts, h1, h2])
    · intro h
      rcases h with h | h <;> simp [booking_form_accepts, h]

theorem api_book_validation_witness :
    api_book envW "  " "0712" "OPD" "" (some "2025-10-01") (some "09:00") emptyStore
      = (.badRequest "Missing required fields", emptyStore)
    ∧ (api_book envW "Jane" "0712" "OPD" "" (some "2025-10-01") (some "09:00") emptyStore).1
      = .ok 1 (generate_booking_ref envW.nowDate 1) (generate_ticket_number envW.nowDate 1)
          ("https://telemed.example.com/" ++ generate_booking_ref envW.nowDate 1) :=
  ⟨(api_book_validation envW emptyStore "  " "0712" "OPD" ""
      (some "2025-10-01") (some "09:00")).1 (Or.inl (by decide)),
   ((api_book_validation envW emptyStore "Jane" "0712" "OPD" ""
      (some "2025-10-01") (some "09:00")).2.1 (by decide) (by decide) (by decide)
      (by decide) (by decide)).2⟩

/- ### C7: now-serving selection -/

theorem charListLt_irrefl : ∀ (a : List Char), charListLt a a = false := by
  intro a
  induction a with
  | nil => rfl
  | cons x xs ih =>
      simp only [charListLt]
      rw [if_neg (lt_irrefl _), if_neg (lt_irrefl _)]
      exact ih

theorem charListLt_trans : ∀ (a b c : List Char), charListLt a b = true →
    charListLt b c = true → charListLt a c = true := by
  intro a
  induction a with
  | nil =>
      intro b c h1 h2
      cases c with
      | nil => cases b <;> simp [charListLt] at h2
      | cons z zs => simp [charListLt]
  | cons x xs ih =>
      intro b c h1 h2
      cases b with
      | nil => simp [charListLt] at h1
      | cons y ys =>
          cases c with
          | nil => simp [charListLt] at h2
          | cons z zs =>
              simp only [charListLt] at h1 h2 ⊢
              have e1 : x.toNat < y.toNat
                  ∨ (x.toNat = y.toNat ∧ charListLt xs ys = true) := by
                by_cases hxy : x.toNat < y.toNat
                · exact Or.inl hxy
                · rw [if_neg hxy] at h1
                  by_cases hyx : y.toNat < x.toNat
                  · rw [if_pos hyx] at h1
                    exact absurd h1 (by simp)
                  · rw [if_neg hyx] at h1
                    exact Or.inr ⟨by omega, h1⟩
              have e2 : y.toNat < z.toNat
                  ∨ (y.toNat = z.toNat ∧ charListLt ys zs = true) := by
                by_cases hyz : y.toNat < z.toNat
                · exact Or.inl hyz
                · rw [if_neg hyz] at h2
                  by_cases hzy : z.toNat < y.toNat
                  · rw [if_pos hzy] at h2
                    exact absurd h2 (by simp)
                  · rw [if_neg hzy] at h2
                    exact Or.inr ⟨by omega, h2⟩
              rcases e1 with h1' | ⟨h1e, h1r⟩ <;> rcases e2 with h2' | ⟨h2e, h2r⟩
              · rw [if_pos (by omega)]
              · rw [if_pos (by omega)]
              · rw [if_pos (by omega)]
              · rw [if_neg (by omega), if_neg (by omega)]
                exact ih ys zs h1r h2r

theorem charListLt_trichotomy : ∀ (a b : List Char),
    charListLt a b = true ∨ a = b ∨ charListLt b a = true := by
  intro a
  induction a with
  | nil =>
      intro b
      cases b with
      | nil => exact Or.inr (Or.inl rfl)
      | cons y ys => exact Or.inl (by simp [charListLt])
  | cons x xs ih =>
      intro b
      cases b with
      | nil => exact Or.inr (Or.inr (by simp [charListLt]))
      | cons y ys =>
          rcases Nat.lt_trichotomy x.toNat y.toNat with h | h | h
          · exact Or.inl (by simp only [charListLt]; rw [if_pos h])
          · have hxy : x = y := Char.ext (UInt32.toNat.inj h)
            rcases ih ys with h2 | h2 | h2
            · refine Or.inl ?_
              simp only [charListLt]
              rw [if_neg (by omega), if_neg (by omega)]
              exact h2
            · exact Or.inr (Or.inl (by rw [hxy, h2]))
            · refine Or.inr (Or.inr ?_)
              simp only [charListLt]
              rw [if_neg (by omega), if_neg (by omega)]
              exact h2
          · exact Or.inr (Or.inr (by simp only [charListLt]; rw [if_pos h]))

theorem keyLT_irrefl (k : String × Nat) : ¬ keyLT k k := by
  rintro (h | ⟨-, h⟩)
  · rw [strLt, charListLt_irrefl] at h
    exact absurd h (by simp)
  · exact lt_irrefl _ h

theorem keyLT_trans (k1 k2 k3 : String × Nat)
    (h12 : keyLT k1 k2) (h23 : keyLT k2 k3) : keyLT k1 k3 := by
  rcases h12 with h | ⟨he, hn⟩ <;> rcases h23 with h' | ⟨he', hn'⟩
  · exact Or.inl (charListLt_trans _ _ _ h h')
  · exact Or.inl (he' ▸ h)
  · exact Or.inl (he ▸ h')
  · exact Or.inr ⟨he.trans he', hn.trans hn'⟩

theorem keyLT_trichotomy (k1 k2 : String × Nat) :
    keyLT k1 k2 ∨ k1 = k2 ∨ keyLT k2 k1 := by
  rcases charListLt_trichotomy k1.1.toList k2.1.toList with h | h | h
  · exact Or.inl (Or.inl h)
  · have hs : k1.1 = k2.1 := String.ext (by simpa using h)
    rcases Nat.lt_trichotomy k1.2 k2.2 with h2 | h2 | h2
    · exact Or.inl (Or.inr ⟨hs, h2⟩)
    · exact Or.inr (Or.inl (Prod.ext hs h2))
    · exact Or.inr (Or.inr (Or.inr ⟨hs.symm, h2⟩))
  · exact Or.inr (Or.inr (Or.inl h))

/-- From c ≤ b and d ≤ c (phrased by negated strict order) conclude d ≤ b. -/
theorem keyLT_nlt_trans (b c d : String × Nat)
    (h1 : ¬ keyLT b c) (h2 : ¬ keyLT c d) : ¬ keyLT b d := by
  intro hbd
  rcases keyLT_trichotomy c d with h | h | h
  · exact h2 h
  · exact h1 (h ▸ hbd)
  · exact h1 (keyLT_trans _ _ _ hbd h)

theorem selectBetter_eq_none (acc : Option Appointment) (a : Appointment) :
    selectBetter acc a = none ↔ acc = none ∧ eligible_stage a = false := by
  cases acc with
  | none => by_cases h : eligible_stage a <;> simp [selectBetter, h]
  | some b =>
      by_cases h : eligible_stage a <;> simp [selectBetter, h]
      split <;> simp

theorem selectBetter_eq_some (acc : Option Appointment) (a : Appointment)
    (z : Appointment) (hz : selectBetter acc a = some z) :
    (acc = some z ∨ (z = a ∧ eligible_stage a = true))
    ∧ (eligible_stage a = true → ¬ keyLT (apptKey a) (apptKey z))
    ∧ (∀ y, acc = some y → ¬ keyLT (apptKey y) (apptKey z)) := by
  by_cases h : eligible_stage a
  · cases acc with
    | none =>
        simp only [selectBetter, h, if_true, Option.some.injEq] at hz
        subst hz
        exact ⟨Or.inr ⟨rfl, h⟩, fun _ => keyLT_irrefl _, by simp⟩
    | some b =>
        simp only [selectBetter, h, if_true] at hz
        by_cases hlt : keyLT (apptKey a) (apptKey b)
        · rw [if_pos hlt] at hz
          obtain rfl : a = z := by simpa using hz
          refine ⟨Or.inr ⟨rfl, h⟩, fun _ => keyLT_irrefl _, ?_⟩
          intro y hy
          obtain rfl : b = y := by simpa using hy
          intro hba
          exact keyLT_irrefl _ (keyLT_trans _ _ _ hlt hba)
        · rw [if_neg hlt] at hz
          obtain rfl : b = z := by simpa using hz
          refine ⟨Or.inl rfl, fun _ => hlt, ?_⟩
          intro y hy
          obtain rfl : b = y := by simpa using hy
          exact keyLT_irrefl _
  · have hf : eligible_stage a = false := by simpa using h
    simp only [selectBetter, hf, Bool.false_eq_true, if_false] at hz
    subst hz
    refine ⟨Or.inl rfl, fun he => absurd he (by simp [hf]), ?_⟩
    intro y hy
    obtain rfl : z = y := by simpa using hy
    exact keyLT_irrefl _

theorem foldl_selectBetter_spec (l : List Appointment) :
    ∀ (acc : Option Appointment),
    (l.foldl selectBetter acc = none ↔
        (acc = none ∧ ∀ a ∈ l, eligible_stage a = false))
    ∧ (∀ x, l.foldl selectBetter acc = some x →
        ((x ∈ l ∧ eligible_stage x = true) ∨ acc = some x)
        ∧ (∀ b ∈ l, eligible_stage b = true → ¬ keyLT (apptKey b) (apptKey x))
        ∧ (∀ y, acc = some y → ¬ keyLT (apptKey y) (apptKey x))) := by
  induction l with
  | nil =>
      intro acc
      constructor
      · simp
      · intro x hx
        simp only [List.foldl_nil] at hx
        subst hx
        refine ⟨Or.inr rfl, by simp, ?_⟩
        intro y hy
        obtain rfl : x = y := by simpa using hy
        exact keyLT_irrefl _
  | cons h t ih =>
      intro acc
      have hfold : (h :: t).foldl selectBetter acc =
          t.foldl selectBetter (selectBetter acc h) := rfl
      constructor
      · rw [hfold]
        rw [(ih (selectBetter acc h)).1, selectBetter_eq_none]
        constructor
        · rintro ⟨⟨h1, h2⟩, h3⟩
          exact ⟨h1, by
            intro a ha
            rcases List.mem_cons.1 ha with rfl | ha
            · exact h2
            · exact h3 a ha⟩
        · rintro ⟨h1, h2⟩
          exact ⟨⟨h1, h2 h (List.mem_cons_self h t)⟩,
            fun a ha => h2 a (List.mem_cons_of_mem h ha)⟩
      · intro x hx
        rw [hfold] at hx
        obtain ⟨hmem, hmin, hacc⟩ := (ih (selectBetter acc h)).2 x hx
        rcases hone : selectBetter acc h with _ | w
        · -- the first step produced nothing: h ineligible and acc empty
          obtain ⟨haccn, hhf⟩ := (selectBetter_eq_none acc h).1 hone
          rw [hone] at hmem hacc
          rcases hmem with ⟨hxt, hxe⟩ | hx'
          · refine ⟨Or.inl ⟨List.mem_cons_of_mem h hxt, hxe⟩, ?_, ?_⟩
            · intro b hb hbe
              rcases List.mem_cons.1 hb with rfl | hbt
              · exact absurd hbe (by simp [hhf])
              · exact hmin b hbt hbe
            · intro y hy
              rw [haccn] at hy
              exact absurd hy (by simp)
          · exact absurd hx' (by simp)
        · obtain ⟨hw1, hw2, hw3⟩ := selectBetter_eq_some acc h w hone
          rw [hone] at hmem hacc
          have hwx : ¬ keyLT (apptKey w) (apptKey x) := hacc w rfl
          refine ⟨?_, ?_, ?_⟩
          · rcases hmem with ⟨hxt, hxe⟩ | hx'
            · exact Or.inl ⟨List.mem_cons_of_mem h hxt, hxe⟩
            · obtain rfl : w = x := by simpa using hx'
              rcases hw1 with haccw | ⟨rfl, he⟩
              · exact Or.inr haccw
              · exact Or.inl ⟨List.mem_cons_self _ _, he⟩
          · intro b hb hbe
            rcases List.mem_cons.1 hb with rfl | hbt
            · exact keyLT_nlt_trans _ _ _ (hw2 hbe) hwx
            · exact hmin b hbt hbe
          · intro y hy
            exact keyLT_nlt_trans _ _ _ (hw3 y hy) hwx

/-- C7: when the now-serving pointer is empty, the queue view's selector
returns an appointment only if its stage is pending or confirmed and no
other pending/confirmed appointment has a strictly smaller
(date-time, created_at) key — i.e. it takes the earliest-scheduled eligible
appointment, with the creation instant as tie-break — skipping rows whose
stage is done or cancelled; if no pending/confirmed appointment exists the
pointer stays empty; and a non-empty pointer is kept as it is. -/
theorem now_serving_selection (s : Store) :
    (now_serving_select none s = none ↔
        ∀ a ∈ s.appointments, eligible_stage a = false)
    ∧ (∀ i, now_serving_select none s = some i →
        ∃ x, x ∈ s.appointments ∧ x.id = i ∧ eligible_stage x = true
          ∧ ∀ b ∈ s.appointments, eligible_stage b = true →
              ¬ keyLT (apptKey b) (apptKey x))
    ∧ (∀ a, a.stage = "done" ∨ a.stage = "cancelled" → eligible_stage a = false)
    ∧ (∀ j, now_serving_select (some j) s = some j) := by
  refine ⟨?_, ?_, ?_, fun j => rfl⟩
  · simp only [now_serving_select, selectNext, Option.map_eq_none']
    rw [(foldl_selectBetter_spec s.appointments none).1]
    simp
  · intro i hi
    simp only [now_serving_select, selectNext, Option.map_eq_some'] at hi
    obtain ⟨x, hx, hxi⟩ := hi
    obtain ⟨hmem, hmin, -⟩ := (foldl_selectBetter_spec s.appointments none).2 x hx
    rcases hmem with ⟨hxl, hxe⟩ | hx'
    · exact ⟨x, hxl, hxi, hxe, hmin⟩
    · exact absurd hx' (by simp)
  · intro a ha
    rcases ha with h | h <;> simp [eligible_stage, h]

def queueStore : Store :=
  { appointments := [
      mkAppt 1 "0700000001" "2025-09-25" "09:00:00" "done" 1,
      mkAppt 2 "0700000002" "2025-09-26" "09:00:00" "pending" 2,
      mkAppt 3 "0700000003" "2025-09-27" "09:00:00" "cancelled" 3,
      mkAppt 4 "0700000004" "2025-09-28" "09:00:00" "confirmed" 4],
    queue_sync := [], next_id := 5 }

theorem now_serving_selection_witness :
    now_serving_select none queueStore = some 2
    ∧ ∃ x, x ∈ queueStore.appointments ∧ x.id = 2 ∧ eligible_stage x = true
        ∧ ∀ b ∈ queueStore.appointments, eligible_stage b = true →
            ¬ keyLT (apptKey b) (apptKey x) :=
  ⟨by decide, (now_serving_selection queueStore).2.1 2 (by decide)⟩

/- ### C1: status lookup -/

def lookupStore : Store :=
  { appointments := [
      mkAppt 1 "0712000001" "2025-09-28" "09:00:00" "pending" 1,
      mkAppt 2 "0712000002" "2025-09-29" "10:00:00" "pending" 2],
    queue_sync := [], next_id := 3 }

/-- C1 (divergence): the Check Status handler runs
`SELECT ... WHERE booking_ref=? OR phone LIKE ?` and then `fetchone()`, so
on a phone-substring query matching two stored appointments it hands the
caller exactly one row — the first match — not all of them: for query
"0712" on a store whose two rows have phones 0712000001 and 0712000002
both rows match the WHERE clause, yet the displayed result is the single
first row.  (Exact matching on booking_ref is also exercised here.)  The
handler can never return more than one row: every result list is empty or a
singleton. -/
theorem status_lookup_single_row :
    (all_status_matches "0712" lookupStore).length = 2
    ∧ check_status_results "0712" lookupStore ≠ all_status_matches "0712" lookupStore
    ∧ check_status_results "0712" lookupStore =
        [mkAppt 1 "0712000001" "2025-09-28" "09:00:00" "pending" 1]
    ∧ (sampleStore.appointments.head?.map (status_match "APPT-20250928-001"))
        = some true
    ∧ check_status_lookup "0712000002" lookupStore =
        some (mkAppt 2 "0712000002" "2025-09-29" "10:00:00" "pending" 2)
    ∧ ∀ q s, check_status_results q s = []
        ∨ ∃ a, check_status_results q s = [a] := by
  refine ⟨by decide, by decide, by decide, by decide, by decide, ?_⟩
  intro q s
  unfold check_status_results
  cases check_status_lookup q s with
  | none => exact Or.inl rfl
  | some a => exact Or.inr ⟨a, rfl⟩

theorem notification_sent_flag_unconditional_witness :
    (∃ a, ((insert_appointment envW "J" "07" "OPD" "" "2025-09-28" "09:00:00" emptyStore).2).appointments.getLast? = some a
        ∧ a.notification_sent = 1)
    ∧ booking_notification_outcome envW "J" "07" "2025-09-28" "09:00:00"
        emptyStore.next_id = .simulated :=
  ⟨(notification_sent_flag_unconditional envW emptyStore "J" "07" "OPD" ""
      "2025-09-28" "09:00:00").1,
   (notification_sent_flag_unconditional envW emptyStore "J" "07" "OPD" ""
      "2025-09-28" "09:00:00").2.1 rfl⟩
